import Mathlib

/-!
Shallow embedding of the Linux platform layer of the gpui crate
(`crates/gpui/src/platform/linux/`): the X11 (direct-wire) run loop in
`platform.rs`, the Wayland (compositor-registry) handlers in
`wayland/client.rs`, the winit-based window state in `window.rs`, the
dispatcher in `dispatcher.rs` and the display queries.

Conventions of the embedding:
* machine integers and ids become `Nat`/`Int`; pixel coordinates become `Int`
  (the claims under study never depend on fractional coordinates);
* a Rust panic (`unwrap` on `None`, `HashMap` indexing on an absent key,
  `todo!()`) becomes `Except.error` carrying a `Fault`;
* user-visible callback invocations are recorded as an `Invocation` list, in
  program order; each invocation records which locks guarding shared
  aggregates (window registry / platform state, callback table, Wayland
  client state) are held by the invoking thread at the moment the callback
  body runs, following Rust temporary-scope rules for the `Mutex` guards;
* closures registered from outside (key-name resolution, modifier decoding,
  the X11 `button_of_key`/`button_from_state` helpers that live outside this
  directory) are parameters of the model.
-/

namespace GpuiLinux

/-- Mouse buttons delivered to the application (`MouseButton`). -/
inductive MouseButton where
  | left
  | middle
  | right
deriving DecidableEq

/-- Modifier snapshot (`Modifiers`). -/
structure Modifiers where
  shift : Bool := false
  control : Bool := false
  alt : Bool := false
  command : Bool := false
  function : Bool := false
deriving DecidableEq

/-- A keystroke (`Keystroke`): modifiers, key name, optional IME key. -/
structure Keystroke where
  modifiers : Modifiers
  key : String
  ime_key : Option String
deriving DecidableEq

/-- An integer point; positions and scroll deltas use it. -/
structure Point where
  x : Int
  y : Int
deriving DecidableEq

/-- A size (`Size`). -/
structure Size where
  width : Int
  height : Int
deriving DecidableEq

/-- Window bounds (`Bounds`). -/
structure Bounds where
  origin : Point
  size : Size
deriving DecidableEq

/-- Scroll delta (`ScrollDelta`): line units or pixel units. -/
inductive ScrollDelta where
  | lines (p : Point)
  | pixels (p : Point)
deriving DecidableEq

/-- Touch phase of a continuous scroll gesture (`TouchPhase`). -/
inductive TouchPhase where
  | started
  | moved
  | ended
deriving DecidableEq

/-- Normalized input events (`PlatformInput`). -/
inductive PlatformInput where
  | keyDown (keystroke : Keystroke) (is_held : Bool)
  | keyUp (keystroke : Keystroke)
  | modifiersChanged (modifiers : Modifiers)
  | mouseDown (button : MouseButton) (position : Point) (modifiers : Modifiers)
      (click_count : Nat)
  | mouseUp (button : MouseButton) (position : Point) (modifiers : Modifiers)
      (click_count : Nat)
  | mouseMove (pressed_button : Option MouseButton) (position : Point)
      (modifiers : Modifiers)
  | mouseExited (pressed_button : Option MouseButton) (position : Point)
      (modifiers : Modifiers)
  | scrollWheel (position : Point) (delta : ScrollDelta) (modifiers : Modifiers)
      (touch_phase : TouchPhase)
deriving DecidableEq

/-- Locks guarding shared aggregates: `LinuxPlatform.state`,
`LinuxPlatform.callbacks`, and `WaylandClient.state`. -/
inductive LockId where
  | stateLock
  | callbacksLock
  | clientStateLock
deriving DecidableEq

/-- What a routed event asks the owning window state to do. -/
inductive WindowAction where
  | destroy
  | expose
  | configure (bounds : Bounds)
  | handleEvent (input : PlatformInput)
  | handleKey (keystroke : Keystroke) (is_held : Bool) (raw : String)
deriving DecidableEq

/-- The target of one user-callback invocation performed by the run loop. -/
inductive CallbackTarget where
  | window (w : Nat) (action : WindowAction)
  | quit
deriving DecidableEq

/-- One callback invocation, together with the shared-aggregate locks held by
the invoking thread at the moment the callback body runs. -/
structure Invocation where
  target : CallbackTarget
  locksHeld : List LockId
deriving DecidableEq

/-- A Rust panic observed by the model. -/
inductive Fault where
  | unwrapNone
  | mapIndexMissing
  | todoPanic
deriving DecidableEq

/-- Character-wise lowercase of a string (embedding of Rust
`str::to_lowercase` on the ASCII key names this layer produces). -/
def strToLower (s : String) : String :=
  String.mk (s.data.map Char.toLower)

/-- Whether `p` is a prefix of `s` (embedding of Rust `str::starts_with`). -/
def strStarts (s p : String) : Bool :=
  p.data.isPrefixOf s.data

/-! ## X11 (direct-wire) variant: `platform.rs` -/

/-- Parameters of the X11 loop that live outside `platform/linux/`:
key-name resolution through the compiled keymap
(`xkb::keysym_get_name(keymap.key_get_syms_by_level(key, 0, 0)[0])`),
modifier decoding (`modifiers_from_state`), button decoding
(`button_of_key`, `button_from_state`) and the interned
`WM_DELETE_WINDOW` atom. -/
structure X11Params where
  keysymName : Nat → String
  modifiersFromState : Nat → Modifiers
  buttonOfKey : Nat → Option MouseButton
  buttonFromState : Nat → Option MouseButton
  wmDelWindow : Nat

/-- Combined mutable state of the X11 loop: the local `scrolling` flag of
`LinuxPlatform::run`, and the contents of the `state` mutex
(`LinuxPlatformState`: `quit_requested`, `windows`) and of the `callbacks`
mutex (only whether a quit callback is registered matters here). The window
registry `HashMap<x::Window, Arc<LinuxWindowState>>` is modelled as an
association list from native window id to a window-state reference. -/
structure X11State where
  scrolling : Bool
  quit_requested : Bool
  windows : List (Nat × Nat)
  quitRegistered : Bool
deriving DecidableEq

/-- Registry lookup (`HashMap::get` / the `&state.windows[&id]` index). -/
def lookupWindow (ws : List (Nat × Nat)) (k : Nat) : Option Nat :=
  (ws.find? (fun p => p.1 == k)).map Prod.snd

/-- Registry removal (`HashMap::remove`, discarding the returned value). -/
def removeWindow (ws : List (Nat × Nat)) (k : Nat) : List (Nat × Nat) :=
  ws.filter (fun p => p.1 != k)

/-- Registry insertion (`HashMap::insert`), as done by `open_window`. -/
def insertWindow (ws : List (Nat × Nat)) (k w : Nat) : List (Nat × Nat) :=
  (k, w) :: removeWindow ws k

/-- The X protocol events matched by `LinuxPlatform::run`. A
`ClientMessage` whose data is not `Data32` carries `none`. -/
inductive XEvent where
  | clientMessage (window : Nat) (atom : Option Nat)
  | expose (window : Nat)
  | configureNotify (window : Nat) (bounds : Bounds)
  | buttonPress (window : Nat) (detail : Nat) (st : Nat) (px : Int) (py : Int)
  | buttonRelease (window : Nat) (detail : Nat) (st : Nat) (px : Int) (py : Int)
  | keyPress (window : Nat) (detail : Nat) (st : Nat) (px : Int) (py : Int)
  | keyRelease (window : Nat) (detail : Nat) (st : Nat) (px : Int) (py : Int)
  | motionNotify (window : Nat) (st : Nat) (px : Int) (py : Int)
  | leaveNotify (window : Nat) (st : Nat) (px : Int) (py : Int)
  | other
deriving DecidableEq

/-- Touch phase chosen by the X11 scroll-press arm (`KeyPress` with detail
4 or 5): `Moved` while `scrolling`, else `Started`; afterwards
`scrolling = true` (platform.rs lines 273-291). -/
def x11PressScrollPhase (scrolling : Bool) : TouchPhase × Bool :=
  (if scrolling then TouchPhase.moved else TouchPhase.started, true)

/-- Touch phase chosen by the X11 scroll-release arm (`KeyRelease` with
detail 4 or 5): always `Ended`, and `scrolling = false` afterwards
(platform.rs lines 327-340). -/
def x11ReleaseScrollPhase : TouchPhase × Bool :=
  (TouchPhase.ended, false)

/-- The modifier-name test of the key arms: the lowercased keysym name
starts with shift/control/super/alt (platform.rs lines 265-269). -/
def x11IsModifierName (key : String) : Bool :=
  strStarts key "shift" || strStarts key "control" ||
    strStarts key "super" || strStarts key "alt"

/-- Scroll-wheel line delta of the X11 arms:
`if detail == 5 { 1. } else { -1.0 }` on the y axis. -/
def x11ScrollLines (detail : Nat) : ScrollDelta :=
  ScrollDelta.lines ⟨0, if detail == 5 then 1 else -1⟩

/-- One iteration body of `LinuxPlatform::run` (platform.rs lines 177-385):
processing of a single X event. Returns the callback invocations made, in
order, and either the successor state or the fault that aborts the loop.

Lock bookkeeping, from the guard lifetimes in the source:
* every window lookup clones the `Arc` inside a block (or a plain statement)
  that drops the `state` guard before the window call, so window-targeted
  invocations carry no shared-aggregate lock;
* the quit callback is invoked inside
  `if let Some(ref mut fun) = self.callbacks.lock().quit { fun(); }`, whose
  scrutinee temporary (the `callbacks` guard) lives until the end of the
  `if let`, so the quit invocation carries `callbacksLock`;
* `self.state.lock().windows.remove(&ev.window()).unwrap()` is a plain
  statement, its guard is dropped before `window.destroy()` runs, and
  `if self.state.lock().windows.is_empty()` drops its guard once the
  condition is evaluated. -/
def x11ProcessEvent (p : X11Params) (s : X11State) :
    XEvent → List Invocation × Except Fault X11State
  | XEvent.clientMessage win atom =>
    match atom with
    | some a =>
      if a == p.wmDelWindow then
        match lookupWindow s.windows win with
        | none => ([], Except.error Fault.unwrapNone)
        | some w =>
          let s1 := { s with windows := removeWindow s.windows win }
          if s1.windows.isEmpty then
            if s1.quitRegistered then
              ([⟨CallbackTarget.window w WindowAction.destroy, []⟩,
                ⟨CallbackTarget.quit, [LockId.callbacksLock]⟩], Except.ok s1)
            else
              ([⟨CallbackTarget.window w WindowAction.destroy, []⟩], Except.ok s1)
          else
            ([⟨CallbackTarget.window w WindowAction.destroy, []⟩], Except.ok s1)
      else ([], Except.ok s)
    | none => ([], Except.ok s)
  | XEvent.expose win =>
    match lookupWindow s.windows win with
    | none => ([], Except.error Fault.mapIndexMissing)
    | some w => ([⟨CallbackTarget.window w WindowAction.expose, []⟩], Except.ok s)
  | XEvent.configureNotify win bounds =>
    match lookupWindow s.windows win with
    | none => ([], Except.error Fault.mapIndexMissing)
    | some w =>
      ([⟨CallbackTarget.window w (WindowAction.configure bounds), []⟩], Except.ok s)
  | XEvent.buttonPress win detail st px py =>
    match lookupWindow s.windows win with
    | none => ([], Except.error Fault.mapIndexMissing)
    | some w =>
      match p.buttonOfKey detail with
      | some button =>
        ([⟨CallbackTarget.window w (WindowAction.handleEvent
            (PlatformInput.mouseDown button ⟨px, py⟩ (p.modifiersFromState st) 1)), []⟩],
         Except.ok s)
      | none => ([], Except.ok s)
  | XEvent.buttonRelease win detail st px py =>
    match lookupWindow s.windows win with
    | none => ([], Except.error Fault.mapIndexMissing)
    | some w =>
      match p.buttonOfKey detail with
      | some button =>
        ([⟨CallbackTarget.window w (WindowAction.handleEvent
            (PlatformInput.mouseUp button ⟨px, py⟩ (p.modifiersFromState st) 1)), []⟩],
         Except.ok s)
      | none => ([], Except.ok s)
  | XEvent.keyPress win detail st px py =>
    match lookupWindow s.windows win with
    | none => ([], Except.error Fault.mapIndexMissing)
    | some w =>
      let key := strToLower (p.keysymName detail)
      let modifiers := p.modifiersFromState st
      if x11IsModifierName key then
        ([⟨CallbackTarget.window w (WindowAction.handleEvent
            (PlatformInput.modifiersChanged modifiers)), []⟩], Except.ok s)
      else if detail == 4 || detail == 5 then
        let ph := x11PressScrollPhase s.scrolling
        ([⟨CallbackTarget.window w (WindowAction.handleEvent
            (PlatformInput.scrollWheel ⟨px, py⟩ (x11ScrollLines detail) modifiers ph.1)), []⟩],
         Except.ok { s with scrolling := ph.2 })
      else
        let key := if key == "return" then "enter" else key
        ([⟨CallbackTarget.window w (WindowAction.handleEvent
            (PlatformInput.keyDown ⟨modifiers, key, none⟩ false)), []⟩], Except.ok s)
  | XEvent.keyRelease win detail st px py =>
    match lookupWindow s.windows win with
    | none => ([], Except.error Fault.mapIndexMissing)
    | some w =>
      let key := strToLower (p.keysymName detail)
      let modifiers := p.modifiersFromState st
      if x11IsModifierName key then
        ([⟨CallbackTarget.window w (WindowAction.handleEvent
            (PlatformInput.modifiersChanged modifiers)), []⟩], Except.ok s)
      else if detail == 4 || detail == 5 then
        let ph := x11ReleaseScrollPhase
        ([⟨CallbackTarget.window w (WindowAction.handleEvent
            (PlatformInput.scrollWheel ⟨px, py⟩ (x11ScrollLines detail) modifiers ph.1)), []⟩],
         Except.ok { s with scrolling := ph.2 })
      else
        let key := if key == "return" then "enter" else key
        ([⟨CallbackTarget.window w (WindowAction.handleEvent
            (PlatformInput.keyUp ⟨modifiers, key, none⟩)), []⟩], Except.ok s)
  | XEvent.motionNotify win st px py =>
    match lookupWindow s.windows win with
    | none => ([], Except.error Fault.mapIndexMissing)
    | some w =>
      ([⟨CallbackTarget.window w (WindowAction.handleEvent
          (PlatformInput.mouseMove (p.buttonFromState st) ⟨px, py⟩
            (p.modifiersFromState st))), []⟩], Except.ok s)
  | XEvent.leaveNotify win st px py =>
    match lookupWindow s.windows win with
    | none => ([], Except.error Fault.mapIndexMissing)
    | some w =>
      ([⟨CallbackTarget.window w (WindowAction.handleEvent
          (PlatformInput.mouseExited (p.buttonFromState st) ⟨px, py⟩
            (p.modifiersFromState st))), []⟩], Except.ok s)
  | XEvent.other => ([], Except.ok s)

/-- `double_click_interval` returns `Duration::default()`, i.e. a zero
duration (platform.rs lines 527-529); modelled in nanoseconds. -/
def double_click_interval : Nat := 0

/-- The native window id the run loop probes the registry with, for a given
event, if any: every arm except a `ClientMessage` that is not a
`WM_DELETE_WINDOW` `Data32` message and the catch-all arm. -/
def x11RegistryProbe (p : X11Params) : XEvent → Option Nat
  | XEvent.clientMessage win (some a) => if a == p.wmDelWindow then some win else none
  | XEvent.clientMessage _ none => none
  | XEvent.expose win => some win
  | XEvent.configureNotify win _ => some win
  | XEvent.buttonPress win _ _ _ _ => some win
  | XEvent.buttonRelease win _ _ _ _ => some win
  | XEvent.keyPress win _ _ _ _ => some win
  | XEvent.keyRelease win _ _ _ _ => some win
  | XEvent.motionNotify win _ _ _ => some win
  | XEvent.leaveNotify win _ _ _ => some win
  | XEvent.other => none

/-- Whether translation of the event drops it after the registry lookup:
exactly the button arms whose `button_of_key` comes back `None`. -/
def x11TranslationDropped (p : X11Params) : XEvent → Bool
  | XEvent.buttonPress _ detail _ _ _ => (p.buttonOfKey detail).isNone
  | XEvent.buttonRelease _ detail _ _ _ => (p.buttonOfKey detail).isNone
  | _ => false

/-- The window-state references receiving a callback, in order. -/
def windowTargets (l : List Invocation) : List Nat :=
  l.filterMap (fun i =>
    match i.target with
    | CallbackTarget.window w _ => some w
    | CallbackTarget.quit => none)

/-- Number of quit-callback invocations in a list. -/
def quitCount (l : List Invocation) : Nat :=
  l.countP (fun i =>
    match i.target with
    | CallbackTarget.quit => true
    | _ => false)

/-- The `click_count` field of an invocation delivering a mouse down/up
event, if it is one. -/
def clickOf (i : Invocation) : Option Nat :=
  match i.target with
  | CallbackTarget.window _ (WindowAction.handleEvent
      (PlatformInput.mouseDown _ _ _ c)) => some c
  | CallbackTarget.window _ (WindowAction.handleEvent
      (PlatformInput.mouseUp _ _ _ c)) => some c
  | _ => none

/-- The `click_count` fields of all mouse down/up events in a list. -/
def clickCounts (l : List Invocation) : List Nat :=
  l.filterMap clickOf

/-- Whether an invocation targets a window state (rather than the façade). -/
def isWindowInvocation (i : Invocation) : Bool :=
  match i.target with
  | CallbackTarget.window _ _ => true
  | CallbackTarget.quit => false

/-! ## Wayland (compositor-registry) variant: `wayland/client.rs`

All the handlers below run inside
`eq.dispatch_pending(&mut self.state.lock())` (client.rs lines 101 and 104):
the guard of the `WaylandClient.state` mutex is an argument of
`dispatch_pending` and stays alive across every handler it dispatches, so
every callback invocation they perform carries `clientStateLock`. -/

/-- The keysyms named by `keysym_to_key` plus a catch-all. -/
inductive Keysym where
  | BackSpace
  | Down
  | Up
  | Left
  | Right
  | Delete
  | Page_Up
  | Page_Down
  | Home
  | End
  | Escape
  | Return
  | space
  | Tab
  | otherSym (code : Nat)
deriving DecidableEq

/-- `keysym_to_key` (client.rs lines 366-387). -/
def keysym_to_key : Keysym → Option String
  | Keysym.BackSpace => some "backspace"
  | Keysym.Down => some "down"
  | Keysym.Up => some "up"
  | Keysym.Left => some "left"
  | Keysym.Right => some "right"
  | Keysym.Delete => some "delete"
  | Keysym.Page_Up => some "pageup"
  | Keysym.Page_Down => some "pagedown"
  | Keysym.Home => some "home"
  | Keysym.End => some "end"
  | Keysym.Escape => some "escape"
  | Keysym.Return => some "enter"
  | Keysym.space => some "space"
  | Keysym.Tab => some "tab"
  | Keysym.otherSym _ => none

/-- Rust `Option::or`. -/
def optionOr (a b : Option String) : Option String :=
  match a with
  | some x => some x
  | none => b

/-- Mutable fields of `WaylandClientState` relevant to input handling:
the window list (keyed here by surface id), the focused window
(`window`), the modifier snapshot, the scrolling flag and the pressed
button. -/
structure WaylandState where
  windows : List (Nat × Nat)
  window : Option Nat
  modifiers : Modifiers
  scrolling : Bool
  pressed_button : Option MouseButton
deriving DecidableEq

/-- `KeyboardHandler::enter` (client.rs lines 275-291): focus the first
window whose surface matches; leave focus unchanged when none matches. -/
def waylandKeyboardEnter (s : WaylandState) (surface : Nat) : WaylandState :=
  match (s.windows.find? (fun p => p.1 == surface)).map Prod.snd with
  | some w => { s with window := some w }
  | none => s

/-- `KeyboardHandler::leave` (client.rs lines 293-302). -/
def waylandKeyboardLeave (s : WaylandState) : WaylandState :=
  { s with window := none }

/-- `KeyboardHandler::press_key` (client.rs lines 304-327): when a window is
focused and `keysym_to_key(keysym).or(utf8)` yields a key, deliver a
`KeyDown` with the lowercased key through `handle_key`. -/
def waylandPressKey (s : WaylandState) (keysym : Keysym) (utf8 : Option String) :
    List Invocation :=
  match s.window with
  | some w =>
    match optionOr (keysym_to_key keysym) utf8 with
    | some key =>
      [⟨CallbackTarget.window w (WindowAction.handleKey
          ⟨s.modifiers, strToLower key, none⟩ false key), [LockId.clientStateLock]⟩]
    | none => []
  | none => []

/-- `KeyboardHandler::release_key` (client.rs lines 329-346): when a window
is focused, deliver a `KeyUp` whose keystroke carries the empty string as
its key, whatever key was released. -/
def waylandReleaseKey (s : WaylandState) : List Invocation :=
  match s.window with
  | some w =>
    [⟨CallbackTarget.window w (WindowAction.handleEvent
        (PlatformInput.keyUp ⟨s.modifiers, "", none⟩)), [LockId.clientStateLock]⟩]
  | none => []

/-- `KeyboardHandler::update_modifiers` (client.rs lines 348-363). -/
def waylandUpdateModifiers (s : WaylandState)
    (ctrl alt shift logo : Bool) : WaylandState :=
  { s with modifiers :=
      { shift := shift, control := ctrl, alt := alt, command := logo,
        function := false } }

/-- The local `button_of_key` of the Wayland client (client.rs lines
538-545): evdev button codes to the fixed button enumeration. -/
def button_of_key (button : Nat) : Option MouseButton :=
  match button with
  | 272 => some MouseButton.left
  | 274 => some MouseButton.middle
  | 273 => some MouseButton.right
  | _ => none

/-- Touch phase chosen by the Wayland `Axis` arm (client.rs lines 498-512):
a stop on either axis ends the session; otherwise `Moved` while scrolling,
else `Started`; the returned flag is the new `scrolling` value. -/
def waylandAxisPhase (scrolling : Bool) (stop : Bool) : TouchPhase × Bool :=
  if stop then (TouchPhase.ended, false)
  else if scrolling then (TouchPhase.moved, true)
  else (TouchPhase.started, true)

/-- The pointer event kinds matched by `PointerHandler::pointer_frame`. -/
inductive PointerEventKind where
  | leave
  | enter
  | motion
  | press (button : Nat)
  | release (button : Nat)
  | axis (hstop : Bool) (vstop : Bool) (habs : Int) (vabs : Int)
deriving DecidableEq

/-- One entry of the `events` slice handed to `pointer_frame`. -/
structure PointerEvent where
  position : Point
  kind : PointerEventKind
deriving DecidableEq

/-- Processing of one pointer event inside the `pointer_frame` loop
(client.rs lines 451-524), given the focused window `w`. -/
def waylandPointerEventStep (w : Nat) (s : WaylandState) (ev : PointerEvent) :
    List Invocation × WaylandState :=
  match ev.kind with
  | PointerEventKind.leave =>
    ([⟨CallbackTarget.window w (WindowAction.handleEvent
        (PlatformInput.mouseExited s.pressed_button ev.position s.modifiers)),
       [LockId.clientStateLock]⟩], s)
  | PointerEventKind.enter => ([], s)
  | PointerEventKind.motion =>
    ([⟨CallbackTarget.window w (WindowAction.handleEvent
        (PlatformInput.mouseMove s.pressed_button ev.position s.modifiers)),
       [LockId.clientStateLock]⟩], s)
  | PointerEventKind.press button =>
    match button_of_key button with
    | some b =>
      ([⟨CallbackTarget.window w (WindowAction.handleEvent
          (PlatformInput.mouseDown b ev.position s.modifiers 1)),
         [LockId.clientStateLock]⟩], { s with pressed_button := some b })
    | none => ([], s)
  | PointerEventKind.release button =>
    match button_of_key button with
    | some b =>
      ([⟨CallbackTarget.window w (WindowAction.handleEvent
          (PlatformInput.mouseUp b ev.position s.modifiers 1)),
         [LockId.clientStateLock]⟩], { s with pressed_button := none })
    | none => ([], { s with pressed_button := none })
  | PointerEventKind.axis hstop vstop habs vabs =>
    let ph := waylandAxisPhase s.scrolling (hstop || vstop)
    ([⟨CallbackTarget.window w (WindowAction.handleEvent
        (PlatformInput.scrollWheel ev.position (ScrollDelta.pixels ⟨habs, -vabs⟩)
          s.modifiers ph.1)), [LockId.clientStateLock]⟩],
     { s with scrolling := ph.2 })

/-- The `for event in events` loop of `pointer_frame`, given focus `w`. -/
def waylandPointerLoop (w : Nat) (s : WaylandState) :
    List PointerEvent → List Invocation × WaylandState
  | [] => ([], s)
  | ev :: rest =>
    let step := waylandPointerEventStep w s ev
    let more := waylandPointerLoop w step.2 rest
    (step.1 ++ more.1, more.2)

/-- `PointerHandler::pointer_frame` (client.rs lines 443-526): nothing at
all happens unless a window is focused. -/
def waylandPointerFrame (s : WaylandState) (events : List PointerEvent) :
    List Invocation × WaylandState :=
  match s.window with
  | none => ([], s)
  | some w => waylandPointerLoop w s events

/-! ## Scroll-phase sequences (both variants)

The per-notification phase choice of each variant is exactly
`x11PressScrollPhase`/`x11ReleaseScrollPhase` (X11) and `waylandAxisPhase`
(Wayland), the same definitions used inside the event-processing functions
above; the run functions below iterate them over a sequence of scroll
notifications, threading the `scrolling` flag. -/

/-- A scroll notification of the X11 variant: a press or a release of
button-emulating key detail 4/5. A release is the stop notification. -/
inductive X11ScrollNotice where
  | press
  | release
deriving DecidableEq

/-- Phase sequence emitted by the X11 arms over a notification sequence. -/
def x11ScrollRun (scrolling : Bool) : List X11ScrollNotice → List TouchPhase
  | [] => []
  | X11ScrollNotice.press :: rest =>
    let ph := x11PressScrollPhase scrolling
    ph.1 :: x11ScrollRun ph.2 rest
  | X11ScrollNotice.release :: rest =>
    let ph := x11ReleaseScrollPhase
    ph.1 :: x11ScrollRun ph.2 rest

/-- Phase sequence emitted by the Wayland `Axis` arm over a sequence of
axis notifications, each recorded by its stop flag. -/
def waylandScrollRun (scrolling : Bool) : List Bool → List TouchPhase
  | [] => []
  | stop :: rest =>
    let ph := waylandAxisPhase scrolling stop
    ph.1 :: waylandScrollRun ph.2 rest

/-- Session automaton state for checking phase sequences. -/
inductive SessionState where
  | idle
  | active
deriving DecidableEq

/-- The session grammar the specification claims:
`Started` only from idle, `Moved` only while active, `Ended` only while
active (so `Ended` needs a prior `Started` in the same session). -/
def claimPhaseStep : SessionState → TouchPhase → Option SessionState
  | SessionState.idle, TouchPhase.started => some SessionState.active
  | SessionState.idle, TouchPhase.moved => none
  | SessionState.idle, TouchPhase.ended => none
  | SessionState.active, TouchPhase.started => none
  | SessionState.active, TouchPhase.moved => some SessionState.active
  | SessionState.active, TouchPhase.ended => some SessionState.idle

/-- Run of the claimed session grammar. -/
def claimPhaseRun (st : SessionState) : List TouchPhase → Option SessionState
  | [] => some st
  | ph :: rest =>
    match claimPhaseStep st ph with
    | some st1 => claimPhaseRun st1 rest
    | none => none

/-- Acceptance by the claimed session grammar, from idle. -/
def claimPhaseOK (l : List TouchPhase) : Bool :=
  (claimPhaseRun SessionState.idle l).isSome

/-- The session grammar the code actually guarantees: as claimed, except
that `Ended` may also occur while idle (a stop notification with no session
in progress still emits `Ended`). -/
def relaxedPhaseStep : SessionState → TouchPhase → Option SessionState
  | SessionState.idle, TouchPhase.started => some SessionState.active
  | SessionState.idle, TouchPhase.moved => none
  | SessionState.idle, TouchPhase.ended => some SessionState.idle
  | SessionState.active, TouchPhase.started => none
  | SessionState.active, TouchPhase.moved => some SessionState.active
  | SessionState.active, TouchPhase.ended => some SessionState.idle

/-- Run of the relaxed session grammar. -/
def relaxedPhaseRun (st : SessionState) : List TouchPhase → Option SessionState
  | [] => some st
  | ph :: rest =>
    match relaxedPhaseStep st ph with
    | some st1 => relaxedPhaseRun st1 rest
    | none => none

/-- Acceptance by the relaxed session grammar, from idle. -/
def relaxedPhaseOK (l : List TouchPhase) : Bool :=
  (relaxedPhaseRun SessionState.idle l).isSome

/-- The automaton state corresponding to a `scrolling` flag. -/
def sessOf (scrolling : Bool) : SessionState :=
  if scrolling then SessionState.active else SessionState.idle

/-! ## Dispatcher: `dispatcher.rs` -/

/-- Where `LinuxDispatcher` sends submitted runnables: runnables started on
freshly spawned threads, and runnables appended to the main-thread queue
drained by the run loop. Runnables are identified by a `Nat`. -/
structure DispatcherEffect where
  spawned : List Nat
  mainQueued : List Nat
deriving DecidableEq

/-- `LinuxDispatcher::dispatch` (dispatcher.rs lines 30-32):
`std::thread::spawn(move || runnable.run())`. -/
def dispatch (runnable : Nat) : DispatcherEffect :=
  ⟨[runnable], []⟩

/-- `LinuxDispatcher::dispatch_on_main_thread` (dispatcher.rs lines 34-36):
also `std::thread::spawn(move || runnable.run())` — the runnable is run on a
fresh thread, and nothing is appended to the main-thread queue. -/
def dispatch_on_main_thread (runnable : Nat) : DispatcherEffect :=
  ⟨[runnable], []⟩

/-- `LinuxDispatcher::dispatch_after` (dispatcher.rs lines 38-43): a fresh
thread that sleeps and then runs the runnable. -/
def dispatch_after (_duration : Nat) (runnable : Nat) : DispatcherEffect :=
  ⟨[runnable], []⟩

/-- The `main_receiver.try_recv()` drain at the bottom of each loop
iteration (platform.rs lines 387-389, client.rs lines 106-108): it pops at
most one runnable. -/
def drainOne (q : List Nat) : Option Nat × List Nat :=
  match q with
  | [] => (none, [])
  | r :: rest => (some r, rest)

/-! ## Window state: `window.rs` (winit-based `LinuxWindow`) -/

/-- A frame callback for the `request_frame_callback` slot. Its observable
behaviour for the slot logic is whether, when invoked, it calls
`on_request_frame` again, and with which callback. -/
inductive FrameCallback where
  | plain (id : Nat)
  | reregister (id : Nat) (next : FrameCallback)
deriving DecidableEq

/-- The identity of a frame callback. -/
def cbId : FrameCallback → Nat
  | FrameCallback.plain i => i
  | FrameCallback.reregister i _ => i

/-- `LinuxWindow::on_request_frame` (window.rs lines 192-194): the slot is
overwritten with the new callback (last writer wins). -/
def on_request_frame (_slot : Option FrameCallback) (callback : FrameCallback) :
    Option FrameCallback :=
  some callback

/-- Running a frame callback body with the window lock either held or
released by the caller. A body that calls `on_request_frame` must take the
window lock; if the caller still holds it, that is a self-deadlock,
modelled as `Except.error`. Otherwise the slot is updated. -/
def runFrameCallbackBody (lockHeld : Bool) (slotDuring : Option FrameCallback) :
    FrameCallback → Except Unit (Option FrameCallback)
  | FrameCallback.plain _ => Except.ok slotDuring
  | FrameCallback.reregister _ next =>
    if lockHeld then Except.error ()
    else Except.ok (on_request_frame slotDuring next)

/-- Trace of one `LinuxWindow::redraw` call. -/
structure RedrawTrace where
  invoked : List Nat
  slotAfterBody : Option FrameCallback
  slotFinal : Option FrameCallback
  deadlocked : Bool
deriving DecidableEq

/-- `LinuxWindow::redraw` (window.rs lines 67-74): take the callback out of
the slot, `drop(this)` releases the window lock, invoke the callback with
the lock released, then re-lock and store the original callback back —
unconditionally, overwriting whatever the body stored in the slot. -/
def redraw (slot : Option FrameCallback) : RedrawTrace :=
  match slot with
  | none => ⟨[], none, none, false⟩
  | some callback =>
    match runFrameCallbackBody false none callback with
    | Except.error _ => ⟨[cbId callback], none, none, true⟩
    | Except.ok slotAfter =>
      ⟨[cbId callback], slotAfter, some callback, false⟩

/-! ## Display queries -/

/-- A display as constructed by the X11 `LinuxDisplay::new(&conn, index)`:
identified by the root-screen index it was built from. -/
structure DisplayModel where
  root_index : Int
deriving DecidableEq

/-- X11 `LinuxPlatform::displays` (platform.rs lines 407-417): one display
per root screen of the connection setup, indexed by enumeration order. -/
def x11Displays (rootCount : Nat) : List DisplayModel :=
  (List.range rootCount).map (fun i => ⟨Int.ofNat i⟩)

/-- X11 `LinuxPlatform::display` (platform.rs lines 419-424): always `Some`,
built from the requested id. -/
def x11Display (id : Nat) : Option DisplayModel :=
  some ⟨Int.ofNat id⟩

/-- Wayland `WaylandClient::displays` (client.rs lines 112-114): returns
`Vec::new()`. -/
def waylandDisplays : List DisplayModel := []

/-- Wayland `WaylandClient::display` (client.rs lines 116-118): `todo!()`,
a panic. -/
def waylandDisplay (_id : Nat) : Except Fault (Option DisplayModel) :=
  Except.error Fault.todoPanic

/-! ## Concrete fixtures for closed evaluations -/

/-- A concrete instantiation of the external X11 helpers: key code 36
resolves to the name `Return`, button code 1 is the left button, and the
interned `WM_DELETE_WINDOW` atom is 99. -/
def exampleParams : X11Params :=
  ⟨fun d => if d == 36 then "Return" else "a",
   fun _ => {},
   fun d => if d == 1 then some MouseButton.left else none,
   fun _ => none,
   99⟩

/-- A platform state holding one registered window: native id 7 mapped to
window-state reference 42, with a quit callback registered. -/
def oneWindowState : X11State :=
  ⟨false, false, [(7, 42)], true⟩

/-- A platform state with an empty window registry and a registered quit
callback. -/
def emptyRegistryState : X11State :=
  ⟨false, false, [], true⟩

/-- A Wayland client state focused on window-state reference 5. -/
def focusedWaylandState : WaylandState :=
  ⟨[], some 5, {}, false, none⟩

/-! ## Helper lemmas -/

/-- Relaxed-grammar acceptance is preserved along an X11 scroll run when the
automaton starts in the state matching the `scrolling` flag. -/
theorem x11RelaxedRunAux (l : List X11ScrollNotice) :
    ∀ b : Bool, (relaxedPhaseRun (sessOf b) (x11ScrollRun b l)).isSome = true := by
  induction l with
  | nil => intro b; rfl
  | cons n rest ih =>
    intro b
    cases n with
    | press =>
      cases b <;>
        simpa [x11ScrollRun, x11PressScrollPhase, relaxedPhaseRun,
          relaxedPhaseStep, sessOf] using ih true
    | release =>
      cases b <;>
        simpa [x11ScrollRun, x11ReleaseScrollPhase, relaxedPhaseRun,
          relaxedPhaseStep, sessOf] using ih false

/-- Relaxed-grammar acceptance is preserved along a Wayland axis run when
the automaton starts in the state matching the `scrolling` flag. -/
theorem waylandRelaxedRunAux (l : List Bool) :
    ∀ b : Bool, (relaxedPhaseRun (sessOf b) (waylandScrollRun b l)).isSome = true := by
  induction l with
  | nil => intro b; rfl
  | cons stop rest ih =>
    intro b
    cases stop with
    | true =>
      cases b <;>
        simpa [waylandScrollRun, waylandAxisPhase, relaxedPhaseRun,
          relaxedPhaseStep, sessOf] using ih false
    | false =>
      cases b <;>
        simpa [waylandScrollRun, waylandAxisPhase, relaxedPhaseRun,
          relaxedPhaseStep, sessOf] using ih true

/-- Shape of every invocation produced by one X11 loop iteration: window
callbacks run with no shared-aggregate lock held, the quit callback runs
with the callback-table lock held, and every delivered mouse down/up event
carries click count 1. -/
theorem x11InvocationFacts (p : X11Params) (s : X11State) (e : XEvent) :
    ∀ i ∈ (x11ProcessEvent p s e).1,
      i.locksHeld = (if isWindowInvocation i then [] else [LockId.callbacksLock]) ∧
      (∀ c, clickOf i = some c → c = 1) := by
  cases e with
  | clientMessage win atom =>
    cases atom with
    | none => simp [x11ProcessEvent]
    | some a =>
      by_cases ha : (a == p.wmDelWindow) = true
      · cases hl : lookupWindow s.windows win with
        | none => simp [x11ProcessEvent, ha, hl]
        | some w =>
          by_cases he : (removeWindow s.windows win).isEmpty = true
          · by_cases hq : s.quitRegistered = true
            · simp [x11ProcessEvent, ha, hl, he, hq, isWindowInvocation, clickOf]
            · simp [x11ProcessEvent, ha, hl, he, hq, isWindowInvocation, clickOf]
          · simp [x11ProcessEvent, ha, hl, he, isWindowInvocation, clickOf]
      · simp [x11ProcessEvent, ha]
  | expose win =>
    cases hl : lookupWindow s.windows win <;>
      simp [x11ProcessEvent, hl, isWindowInvocation, clickOf]
  | configureNotify win bounds =>
    cases hl : lookupWindow s.windows win <;>
      simp [x11ProcessEvent, hl, isWindowInvocation, clickOf]
  | buttonPress win detail st px py =>
    cases hl : lookupWindow s.windows win with
    | none => simp [x11ProcessEvent, hl]
    | some w =>
      cases hb : p.buttonOfKey detail <;>
        simp [x11ProcessEvent, hl, hb, isWindowInvocation, clickOf]
  | buttonRelease win detail st px py =>
    cases hl : lookupWindow s.windows win with
    | none => simp [x11ProcessEvent, hl]
    | some w =>
      cases hb : p.buttonOfKey detail <;>
        simp [x11ProcessEvent, hl, hb, isWindowInvocation, clickOf]
  | keyPress win detail st px py =>
    cases hl : lookupWindow s.windows win with
    | none => simp [x11ProcessEvent, hl]
    | some w =>
      by_cases hm : x11IsModifierName (strToLower (p.keysymName detail)) = true
      · simp [x11ProcessEvent, hl, hm, isWindowInvocation, clickOf]
      · by_cases h45 : (detail == 4 || detail == 5) = true
        · simp [x11ProcessEvent, hl, hm, h45, isWindowInvocation, clickOf]
        · simp [x11ProcessEvent, hl, hm, h45, isWindowInvocation, clickOf]
  | keyRelease win detail st px py =>
    cases hl : lookupWindow s.windows win with
    | none => simp [x11ProcessEvent, hl]
    | some w =>
      by_cases hm : x11IsModifierName (strToLower (p.keysymName detail)) = true
      · simp [x11ProcessEvent, hl, hm, isWindowInvocation, clickOf]
      · by_cases h45 : (detail == 4 || detail == 5) = true
        · simp [x11ProcessEvent, hl, hm, h45, isWindowInvocation, clickOf]
        · simp [x11ProcessEvent, hl, hm, h45, isWindowInvocation, clickOf]
  | motionNotify win st px py =>
    cases hl : lookupWindow s.windows win <;>
      simp [x11ProcessEvent, hl, isWindowInvocation, clickOf]
  | leaveNotify win st px py =>
    cases hl : lookupWindow s.windows win <;>
      simp [x11ProcessEvent, hl, isWindowInvocation, clickOf]
  | other => simp [x11ProcessEvent]

/-- Shape of every invocation produced by one Wayland pointer event: the
client-state lock is held, and mouse down/up events carry click count 1. -/
theorem waylandStepFacts (w : Nat) (s : WaylandState) (ev : PointerEvent) :
    ∀ i ∈ (waylandPointerEventStep w s ev).1,
      i.locksHeld = [LockId.clientStateLock] ∧
      (∀ c, clickOf i = some c → c = 1) := by
  rcases ev with ⟨pos, k⟩
  cases k with
  | leave => simp [waylandPointerEventStep, clickOf]
  | enter => simp [waylandPointerEventStep]
  | motion => simp [waylandPointerEventStep, clickOf]
  | press b =>
    cases hb : button_of_key b <;>
      simp [waylandPointerEventStep, hb, clickOf]
  | release b =>
    cases hb : button_of_key b <;>
      simp [waylandPointerEventStep, hb, clickOf]
  | axis hstop vstop habs vabs => simp [waylandPointerEventStep, clickOf]

/-- The pointer-frame loop only emits invocations with the shape of
`waylandStepFacts`. -/
theorem waylandLoopFacts (evs : List PointerEvent) :
    ∀ (w : Nat) (s : WaylandState), ∀ i ∈ (waylandPointerLoop w s evs).1,
      i.locksHeld = [LockId.clientStateLock] ∧
      (∀ c, clickOf i = some c → c = 1) := by
  induction evs with
  | nil => intro w s i hi; simp [waylandPointerLoop] at hi
  | cons ev rest ih =>
    intro w s i hi
    simp only [waylandPointerLoop] at hi
    rw [List.mem_append] at hi
    rcases hi with hi | hi
    · exact waylandStepFacts w s ev i hi
    · exact ih w _ i hi

/-! ## Claim theorems -/

/-- C1, counterexample. The claim says an event for an unregistered or
removed handle is a no-op with no fault; but on an empty registry an
`Expose` event indexes the window map at a missing key
(`&state.windows[&ev.window()]`, platform.rs line 195), a panic, and a
`WM_DELETE_WINDOW` client message unwraps `HashMap::remove`'s `None`
(platform.rs line 182), also a panic. -/
theorem claim_C1_counterexample :
    lookupWindow emptyRegistryState.windows 0 = none ∧
    x11ProcessEvent exampleParams emptyRegistryState (XEvent.expose 0) =
      ([], Except.error Fault.mapIndexMissing) ∧
    x11ProcessEvent exampleParams emptyRegistryState
        (XEvent.clientMessage 0 (some 99)) =
      ([], Except.error Fault.unwrapNone) :=
  ⟨rfl, rfl, rfl⟩

/-- C1, amended: for every native event that probes the window registry,
if the probed handle is registered then the iteration succeeds and the
window-state references receiving a callback are exactly `[w]` for the
registered `w` — exactly one window state — except that a button event
whose button code is unrecognized is dropped after the lookup (zero
invocations); if the probed handle is not registered, the iteration makes
zero callback invocations and faults (panics) instead of being a no-op. -/
theorem claim_C1_amended (p : X11Params) (s : X11State) (e : XEvent) :
    (∀ h w, x11RegistryProbe p e = some h → lookupWindow s.windows h = some w →
      windowTargets (x11ProcessEvent p s e).1 =
        (if x11TranslationDropped p e then [] else [w]) ∧
      ∃ s1, (x11ProcessEvent p s e).2 = Except.ok s1) ∧
    (∀ h, x11RegistryProbe p e = some h → lookupWindow s.windows h = none →
      ∃ f, x11ProcessEvent p s e = ([], Except.error f)) := by
  constructor
  · intro h w hprobe hlook
    cases e with
    | clientMessage win atom =>
      cases atom with
      | none => simp [x11RegistryProbe] at hprobe
      | some a =>
        by_cases ha : (a == p.wmDelWindow) = true
        · simp only [x11RegistryProbe, ha, if_true, Option.some.injEq] at hprobe
          subst hprobe
          by_cases he : (removeWindow s.windows win).isEmpty = true
          · by_cases hq : s.quitRegistered = true
            · exact ⟨by simp [x11ProcessEvent, ha, hlook, he, hq,
                windowTargets, x11TranslationDropped],
                by simp [x11ProcessEvent, ha, hlook, he, hq]⟩
            · exact ⟨by simp [x11ProcessEvent, ha, hlook, he, hq,
                windowTargets, x11TranslationDropped],
                by simp [x11ProcessEvent, ha, hlook, he, hq]⟩
          · exact ⟨by simp [x11ProcessEvent, ha, hlook, he,
              windowTargets, x11TranslationDropped],
              by simp [x11ProcessEvent, ha, hlook, he]⟩
        · simp [x11RegistryProbe, ha] at hprobe
    | expose win =>
      simp only [x11RegistryProbe, Option.some.injEq] at hprobe
      subst hprobe
      exact ⟨by simp [x11ProcessEvent, hlook, windowTargets, x11TranslationDropped],
        by simp [x11ProcessEvent, hlook]⟩
    | configureNotify win bounds =>
      simp only [x11RegistryProbe, Option.some.injEq] at hprobe
      subst hprobe
      exact ⟨by simp [x11ProcessEvent, hlook, windowTargets, x11TranslationDropped],
        by simp [x11ProcessEvent, hlook]⟩
    | buttonPress win detail st px py =>
      simp only [x11RegistryProbe, Option.some.injEq] at hprobe
      subst hprobe
      cases hb : p.buttonOfKey detail with
      | none =>
        exact ⟨by simp [x11ProcessEvent, hlook, hb, windowTargets,
          x11TranslationDropped], by simp [x11ProcessEvent, hlook, hb]⟩
      | some b =>
        exact ⟨by simp [x11ProcessEvent, hlook, hb, windowTargets,
          x11TranslationDropped], by simp [x11ProcessEvent, hlook, hb]⟩
    | buttonRelease win detail st px py =>
      simp only [x11RegistryProbe, Option.some.injEq] at hprobe
      subst hprobe
      cases hb : p.buttonOfKey detail with
      | none =>
        exact ⟨by simp [x11ProcessEvent, hlook, hb, windowTargets,
          x11TranslationDropped], by simp [x11ProcessEvent, hlook, hb]⟩
      | some b =>
        exact ⟨by simp [x11ProcessEvent, hlook, hb, windowTargets,
          x11TranslationDropped], by simp [x11ProcessEvent, hlook, hb]⟩
    | keyPress win detail st px py =>
      simp only [x11RegistryProbe, Option.some.injEq] at hprobe
      subst hprobe
      by_cases hm : x11IsModifierName (strToLower (p.keysymName detail)) = true
      · exact ⟨by simp [x11ProcessEvent, hlook, hm, windowTargets,
          x11TranslationDropped], by simp [x11ProcessEvent, hlook, hm]⟩
      · by_cases h45 : (detail == 4 || detail == 5) = true
        · exact ⟨by simp [x11ProcessEvent, hlook, hm, h45, windowTargets,
            x11TranslationDropped], by simp [x11ProcessEvent, hlook, hm, h45]⟩
        · exact ⟨by simp [x11ProcessEvent, hlook, hm, h45, windowTargets,
            x11TranslationDropped], by simp [x11ProcessEvent, hlook, hm, h45]⟩
    | keyRelease win detail st px py =>
      simp only [x11RegistryProbe, Option.some.injEq] at hprobe
      subst hprobe
      by_cases hm : x11IsModifierName (strToLower (p.keysymName detail)) = true
      · exact ⟨by simp [x11ProcessEvent, hlook, hm, windowTargets,
          x11TranslationDropped], by simp [x11ProcessEvent, hlook, hm]⟩
      · by_cases h45 : (detail == 4 || detail == 5) = true
        · exact ⟨by simp [x11ProcessEvent, hlook, hm, h45, windowTargets,
            x11TranslationDropped], by simp [x11ProcessEvent, hlook, hm, h45]⟩
        · exact ⟨by simp [x11ProcessEvent, hlook, hm, h45, windowTargets,
            x11TranslationDropped], by simp [x11ProcessEvent, hlook, hm, h45]⟩
    | motionNotify win st px py =>
      simp only [x11RegistryProbe, Option.some.injEq] at hprobe
      subst hprobe
      exact ⟨by simp [x11ProcessEvent, hlook, windowTargets, x11TranslationDropped],
        by simp [x11ProcessEvent, hlook]⟩
    | leaveNotify win st px py =>
      simp only [x11RegistryProbe, Option.some.injEq] at hprobe
      subst hprobe
      exact ⟨by simp [x11ProcessEvent, hlook, windowTargets, x11TranslationDropped],
        by simp [x11ProcessEvent, hlook]⟩
    | other => simp [x11RegistryProbe] at hprobe
  · intro h hprobe hlook
    cases e with
    | clientMessage win atom =>
      cases atom with
      | none => simp [x11RegistryProbe] at hprobe
      | some a =>
        by_cases ha : (a == p.wmDelWindow) = true
        · simp only [x11RegistryProbe, ha, if_true, Option.some.injEq] at hprobe
          subst hprobe
          exact ⟨Fault.unwrapNone, by simp [x11ProcessEvent, ha, hlook]⟩
        · simp [x11RegistryProbe, ha] at hprobe
    | expose win =>
      simp only [x11RegistryProbe, Option.some.injEq] at hprobe
      subst hprobe
      exact ⟨Fault.mapIndexMissing, by simp [x11ProcessEvent, hlook]⟩
    | configureNotify win bounds =>
      simp only [x11RegistryProbe, Option.some.injEq] at hprobe
      subst hprobe
      exact ⟨Fault.mapIndexMissing, by simp [x11ProcessEvent, hlook]⟩
    | buttonPress win detail st px py =>
      simp only [x11RegistryProbe, Option.some.injEq] at hprobe
      subst hprobe
      exact ⟨Fault.mapIndexMissing, by simp [x11ProcessEvent, hlook]⟩
    | buttonRelease win detail st px py =>
      simp only [x11RegistryProbe, Option.some.injEq] at hprobe
      subst hprobe
      exact ⟨Fault.mapIndexMissing, by simp [x11ProcessEvent, hlook]⟩
    | keyPress win detail st px py =>
      simp only [x11RegistryProbe, Option.some.injEq] at hprobe
      subst hprobe
      exact ⟨Fault.mapIndexMissing, by simp [x11ProcessEvent, hlook]⟩
    | keyRelease win detail st px py =>
      simp only [x11RegistryProbe, Option.some.injEq] at hprobe
      subst hprobe
      exact ⟨Fault.mapIndexMissing, by simp [x11ProcessEvent, hlook]⟩
    | motionNotify win st px py =>
      simp only [x11RegistryProbe, Option.some.injEq] at hprobe
      subst hprobe
      exact ⟨Fault.mapIndexMissing, by simp [x11ProcessEvent, hlook]⟩
    | leaveNotify win st px py =>
      simp only [x11RegistryProbe, Option.some.injEq] at hprobe
      subst hprobe
      exact ⟨Fault.mapIndexMissing, by simp [x11ProcessEvent, hlook]⟩
    | other => simp [x11RegistryProbe] at hprobe

/-- C1, witness: with window id 7 registered as window-state 42, an
`Expose` for 7 is routed to exactly window-state 42. -/
theorem claim_C1_amended_witness :
    windowTargets (x11ProcessEvent exampleParams oneWindowState
      (XEvent.expose 7)).1 = [42] := by
  have h := (claim_C1_amended exampleParams oneWindowState (XEvent.expose 7)).1
    7 42 rfl rfl
  simpa [x11TranslationDropped] using h.1

/-- C2: the claim says a task submitted through `dispatch_on_main_thread`
is placed on the main-thread queue drained by the event loop. The code
instead spawns a fresh thread running the task (indistinguishable from
plain `dispatch`) and appends nothing to the main-thread queue, so the
drained queue can never contain the task. -/
theorem claim_C2_bug (runnable : Nat) :
    (dispatch_on_main_thread runnable).mainQueued = [] ∧
    (dispatch_on_main_thread runnable).spawned = [runnable] ∧
    dispatch_on_main_thread runnable = dispatch runnable ∧
    (∀ q : List Nat, (drainOne ((dispatch_on_main_thread runnable).mainQueued ++ q)).1 =
      (drainOne q).1) :=
  ⟨rfl, rfl, rfl, fun _ => rfl⟩

/-- C3, counterexample. The claim says every shared-aggregate lock is
released before a user callback body runs; but processing the close of the
last window invokes the quit callback from inside
`if let Some(ref mut fun) = self.callbacks.lock().quit { fun(); }`
(platform.rs lines 185-187), whose guard temporary lives until the end of
the `if let`, so the callback-table lock is held during the callback. -/
theorem claim_C3_counterexample :
    (x11ProcessEvent exampleParams oneWindowState
        (XEvent.clientMessage 7 (some 99))).1 =
      [⟨CallbackTarget.window 42 WindowAction.destroy, []⟩,
       ⟨CallbackTarget.quit, [LockId.callbacksLock]⟩] ∧
    ((x11ProcessEvent exampleParams oneWindowState
        (XEvent.clientMessage 7 (some 99))).1.all
      (fun i => i.locksHeld.isEmpty)) = false :=
  ⟨rfl, rfl⟩

/-- C3, amended: in the X11 loop every window-state callback runs with all
shared-aggregate locks released, and registry mutation never overlaps a
callback under the same lock acquisition; but the quit callback runs while
the callback-table lock is held, and in the Wayland variant every handler
callback runs while the client-state lock is held (the guard passed to
`dispatch_pending` spans the handlers). -/
theorem claim_C3_amended :
    (∀ (p : X11Params) (s : X11State) (e : XEvent),
      (((x11ProcessEvent p s e).1.filter isWindowInvocation).all
        (fun i => i.locksHeld.isEmpty)) = true) ∧
    (∀ (p : X11Params) (s : X11State) (e : XEvent),
      (((x11ProcessEvent p s e).1.filter (fun i => !isWindowInvocation i)).all
        (fun i => i.locksHeld == [LockId.callbacksLock])) = true) ∧
    (∀ (s : WaylandState) (events : List PointerEvent),
      ((waylandPointerFrame s events).1.all
        (fun i => i.locksHeld == [LockId.clientStateLock])) = true) ∧
    (∀ (s : WaylandState) (keysym : Keysym) (utf8 : Option String),
      ((waylandPressKey s keysym utf8).all
        (fun i => i.locksHeld == [LockId.clientStateLock])) = true) ∧
    (∀ s : WaylandState,
      ((waylandReleaseKey s).all
        (fun i => i.locksHeld == [LockId.clientStateLock])) = true) := by
  refine ⟨?_, ?_, ?_, ?_, ?_⟩
  · intro p s e
    rw [List.all_eq_true]
    intro i hi
    rw [List.mem_filter] at hi
    have h := (x11InvocationFacts p s e i hi.1).1
    rw [hi.2] at h
    simp [h]
  · intro p s e
    rw [List.all_eq_true]
    intro i hi
    rw [List.mem_filter] at hi
    have hw : isWindowInvocation i = false := by
      have := hi.2
      simpa using this
    have h := (x11InvocationFacts p s e i hi.1).1
    rw [hw] at h
    simp [h]
  · intro s events
    rw [List.all_eq_true]
    intro i hi
    rcases hws : s.window with _ | w
    · rw [waylandPointerFrame, hws] at hi
      simp at hi
    · rw [waylandPointerFrame, hws] at hi
      have h := (waylandLoopFacts events w s i hi).1
      simp [h]
  · intro s keysym utf8
    rcases hws : s.window with _ | w
    · simp [waylandPressKey, hws]
    · rcases hk : optionOr (keysym_to_key keysym) utf8 with _ | key
      · simp [waylandPressKey, hws, hk]
      · simp [waylandPressKey, hws, hk]
  · intro s
    rcases hws : s.window with _ | w <;> simp [waylandReleaseKey, hws]

/-- C4, counterexample. The claim says a callback registered from inside a
frame-callback invocation fires on the subsequent frame tick; but `redraw`
reinserts the original callback unconditionally (window.rs line 72),
overwriting the re-entrant registration: a callback 0 that registers
callback 1 ends with the slot again holding 0, and the next tick invokes 0,
not 1. -/
theorem claim_C4_counterexample :
    redraw (some (FrameCallback.reregister 0 (FrameCallback.plain 1))) =
      ⟨[0], some (FrameCallback.plain 1),
        some (FrameCallback.reregister 0 (FrameCallback.plain 1)), false⟩ ∧
    (redraw (redraw (some (FrameCallback.reregister 0
        (FrameCallback.plain 1)))).slotFinal).invoked = [0] ∧
    [0] ≠ [cbId (FrameCallback.plain 1)] :=
  ⟨rfl, rfl, by decide⟩

/-- C4, amended: invoking the stored frame callback removes it from its
slot and calls it with the window lock released, so a callback that itself
calls `on_request_frame` completes without deadlock; but afterwards the
original callback is unconditionally reinserted, overwriting any re-entrant
registration, so the original callback — not the one registered from inside
the invocation — fires on the subsequent frame tick. -/
theorem claim_C4_amended :
    (∀ slot : Option FrameCallback, (redraw slot).deadlocked = false) ∧
    (∀ (id : Nat) (next : FrameCallback),
      redraw (some (FrameCallback.reregister id next)) =
        ⟨[id], some next, some (FrameCallback.reregister id next), false⟩) ∧
    (∀ cb : FrameCallback,
      (redraw (redraw (some cb)).slotFinal).invoked = [cbId cb]) := by
  refine ⟨?_, ?_, ?_⟩
  · intro slot
    rcases slot with _ | cb
    · rfl
    · cases cb <;> rfl
  · intro id next
    rfl
  · intro cb
    cases cb <;> rfl

/-- C5, counterexample. The claim says `Ended` never occurs without a prior
`Started` in the same session; but a stop notification processed while no
session is in progress (an X11 release of detail 4/5, or a Wayland axis
event with a stop flag) emits `Ended` immediately, from the initial idle
state, in both variants. -/
theorem claim_C5_counterexample :
    x11ScrollRun false [X11ScrollNotice.release] = [TouchPhase.ended] ∧
    claimPhaseOK (x11ScrollRun false [X11ScrollNotice.release]) = false ∧
    waylandScrollRun false [true] = [TouchPhase.ended] ∧
    claimPhaseOK (waylandScrollRun false [true]) = false :=
  ⟨rfl, rfl, rfl, rfl⟩

/-- C5, amended: over every scroll-notification sequence, both variants
emit phase sequences in which `Started` occurs only when idle, `Moved` only
inside a session, two consecutive `Started` never occur, and a new gesture
after `Ended` re-enters at `Started` — but a stop notification always emits
`Ended`, even when no session is in progress. -/
theorem claim_C5_amended :
    (∀ l : List X11ScrollNotice, relaxedPhaseOK (x11ScrollRun false l) = true) ∧
    (∀ l : List Bool, relaxedPhaseOK (waylandScrollRun false l) = true) ∧
    x11ReleaseScrollPhase = (TouchPhase.ended, false) ∧
    (∀ b : Bool, waylandAxisPhase b true = (TouchPhase.ended, false)) ∧
    (∀ b : Bool, (x11PressScrollPhase b).1 =
      if b then TouchPhase.moved else TouchPhase.started) := by
  refine ⟨?_, ?_, rfl, ?_, ?_⟩
  · intro l
    have h := x11RelaxedRunAux l false
    simpa [relaxedPhaseOK, sessOf] using h
  · intro l
    have h := waylandRelaxedRunAux l false
    simpa [relaxedPhaseOK, sessOf] using h
  · intro b
    rfl
  · intro b
    rfl

/-- C6: processing the `WM_DELETE_WINDOW` close message for the last
registered window invokes the registered quit callback exactly once; a
second close message for the already-removed handle invokes no callback at
all (the iteration panics on `HashMap::remove(..).unwrap()` before reaching
any callback). -/
theorem claim_C6 (p : X11Params) (s : X11State) (win w : Nat) :
    (lookupWindow s.windows win = some w →
      (removeWindow s.windows win).isEmpty = true →
      s.quitRegistered = true →
      quitCount (x11ProcessEvent p s
        (XEvent.clientMessage win (some p.wmDelWindow))).1 = 1) ∧
    (lookupWindow s.windows win = none →
      (x11ProcessEvent p s (XEvent.clientMessage win (some p.wmDelWindow))).1 = [] ∧
      quitCount (x11ProcessEvent p s
        (XEvent.clientMessage win (some p.wmDelWindow))).1 = 0 ∧
      (x11ProcessEvent p s (XEvent.clientMessage win (some p.wmDelWindow))).2 =
        Except.error Fault.unwrapNone) := by
  constructor
  · intro hlook he hq
    simp [x11ProcessEvent, hlook, he, hq, quitCount]
  · intro hlook
    refine ⟨?_, ?_, ?_⟩ <;> simp [x11ProcessEvent, hlook, quitCount]

/-- C6, witness: with only window 7 registered and a quit callback set,
the close message for 7 fires the quit callback once; with the registry
already empty, the same message fires nothing. -/
theorem claim_C6_witness :
    quitCount (x11ProcessEvent exampleParams oneWindowState
      (XEvent.clientMessage 7 (some 99))).1 = 1 ∧
    (x11ProcessEvent exampleParams emptyRegistryState
      (XEvent.clientMessage 7 (some 99))).1 = [] :=
  ⟨(claim_C6 exampleParams oneWindowState 7 42).1 rfl rfl rfl,
   ((claim_C6 exampleParams emptyRegistryState 7 42).2 rfl).1⟩

/-- C7: a key press whose symbolic name resolves to the literal "return"
is delivered as a `KeyDown` whose key field is "enter", in both variants:
the X11 loop renames the lowercased keysym name, and the Wayland
`keysym_to_key` maps `Keysym::Return` directly to "enter". -/
theorem claim_C7 :
    (∀ (p : X11Params) (s : X11State) (win w detail st : Nat) (px py : Int),
      lookupWindow s.windows win = some w →
      strToLower (p.keysymName detail) = "return" →
      (detail == 4) = false → (detail == 5) = false →
      (x11ProcessEvent p s (XEvent.keyPress win detail st px py)).1 =
        [⟨CallbackTarget.window w (WindowAction.handleEvent
            (PlatformInput.keyDown ⟨p.modifiersFromState st, "enter", none⟩ false)),
          []⟩]) ∧
    (∀ (s : WaylandState) (w : Nat) (utf8 : Option String),
      s.window = some w →
      waylandPressKey s Keysym.Return utf8 =
        [⟨CallbackTarget.window w (WindowAction.handleKey
            ⟨s.modifiers, "enter", none⟩ false "enter"), [LockId.clientStateLock]⟩]) := by
  constructor
  · intro p s win w detail st px py hlook hkey h4 h5
    have hmod : x11IsModifierName "return" = false := by decide
    have hret : (("return" : String) == "return") = true := by decide
    simp [x11ProcessEvent, hlook, hkey, hmod, h4, h5, hret]
  · intro s w utf8 hws
    have hlow : strToLower "enter" = "enter" := by decide
    simp [waylandPressKey, hws, keysym_to_key, optionOr, hlow]

/-- C7, witness: key code 36 resolves to "Return"; with window 7
registered, the X11 key press delivers key "enter"; the Wayland press of
`Keysym::Return` with window 5 focused also delivers key "enter". -/
theorem claim_C7_witness :
    (x11ProcessEvent exampleParams oneWindowState
        (XEvent.keyPress 7 36 0 0 0)).1 =
      [⟨CallbackTarget.window 42 (WindowAction.handleEvent
          (PlatformInput.keyDown ⟨exampleParams.modifiersFromState 0, "enter", none⟩
            false)), []⟩] ∧
    waylandPressKey focusedWaylandState Keysym.Return none =
      [⟨CallbackTarget.window 5 (WindowAction.handleKey
          ⟨focusedWaylandState.modifiers, "enter", none⟩ false "enter"),
        [LockId.clientStateLock]⟩] :=
  ⟨claim_C7.1 exampleParams oneWindowState 7 42 36 0 0 0 rfl (by decide) rfl rfl,
   claim_C7.2 focusedWaylandState 5 none rfl⟩

/-- C8, counterexample. The claim says both variants enumerate monitors via
`displays()` and answer `display(id)` from the live connection; but the
Wayland variant's `displays()` returns an empty vector and its
`display(id)` is `todo!()`, a panic, so on a connection with one root
screen the two variants disagree. -/
theorem claim_C8_counterexample :
    x11Displays 1 = [⟨0⟩] ∧
    waylandDisplays = [] ∧
    waylandDisplay 0 = Except.error Fault.todoPanic ∧
    x11Displays 1 ≠ waylandDisplays :=
  ⟨rfl, rfl, rfl, by decide⟩

/-- C8, amended: the two variants are not capability-equivalent for display
queries: the direct-wire variant enumerates one display per root screen of
the connection and constructs a display for any requested id, while the
compositor-registry variant returns an empty display list and its
`display(id)` panics. -/
theorem claim_C8_amended :
    (∀ n : Nat, (x11Displays n).length = n) ∧
    (∀ id : Nat, x11Display id = some ⟨Int.ofNat id⟩) ∧
    waylandDisplays = [] ∧
    (∀ id : Nat, waylandDisplay id = Except.error Fault.todoPanic) := by
  refine ⟨?_, fun _ => rfl, rfl, fun _ => rfl⟩
  intro n
  rw [x11Displays, List.length_map, List.length_range]

/-- C9: in the Wayland variant, every key release while a window is focused
delivers a `KeyUp` whose keystroke has the empty string as its key — the
released key's identity is discarded (client.rs line 341). -/
theorem claim_C9 (s : WaylandState) (w : Nat) (h : s.window = some w) :
    waylandReleaseKey s =
      [⟨CallbackTarget.window w (WindowAction.handleEvent
          (PlatformInput.keyUp ⟨s.modifiers, "", none⟩)), [LockId.clientStateLock]⟩] := by
  simp [waylandReleaseKey, h]

/-- C9, witness: with window 5 focused, a key release delivers a `KeyUp`
with the empty key. -/
theorem claim_C9_witness :
    waylandReleaseKey focusedWaylandState =
      [⟨CallbackTarget.window 5 (WindowAction.handleEvent
          (PlatformInput.keyUp ⟨focusedWaylandState.modifiers, "", none⟩)),
        [LockId.clientStateLock]⟩] :=
  claim_C9 focusedWaylandState 5 rfl

/-- C10: every `MouseDown`/`MouseUp` delivered by either variant carries
`click_count = 1`, and `double_click_interval` reports a zero duration. -/
theorem claim_C10 :
    (∀ (p : X11Params) (s : X11State) (e : XEvent),
      ((clickCounts (x11ProcessEvent p s e).1).all (fun c => c == 1)) = true) ∧
    (∀ (s : WaylandState) (events : List PointerEvent),
      ((clickCounts (waylandPointerFrame s events).1).all (fun c => c == 1)) = true) ∧
    double_click_interval = 0 := by
  refine ⟨?_, ?_, rfl⟩
  · intro p s e
    rw [List.all_eq_true]
    intro c hc
    rw [clickCounts, List.mem_filterMap] at hc
    obtain ⟨i, hi, hclick⟩ := hc
    have h := (x11InvocationFacts p s e i hi).2 c hclick
    simp [h]
  · intro s events
    rw [List.all_eq_true]
    intro c hc
    rw [clickCounts, List.mem_filterMap] at hc
    obtain ⟨i, hi, hclick⟩ := hc
    rcases hws : s.window with _ | w
    · rw [waylandPointerFrame, hws] at hi
      simp at hi
    · rw [waylandPointerFrame, hws] at hi
      have h := (waylandLoopFacts events w s i hi).2 c hclick
      simp [h]

end GpuiLinux
